import Mathlib

/-!
Verification development for the NewsBot ingestion/dedup/delivery core.

The definitions below are a shallow embedding of the JavaScript source
(`index.js` of the repository): the SQLite `news` table is modelled as a
list of rows in rowid order, the `settings` table as an association list,
the in-memory subscription registry (`chatIds` set and `feedSubscribers`
map) as lists, and network effects (Telegram sends, Reddit HTTP calls)
as explicit oracle values passed in; a JavaScript async function that can
throw is modelled with `Except`.  String case folding is ASCII, matching
both SQLite `NOCASE`/`LOWER` and the ASCII inputs handled here.
-/

set_option autoImplicit false

namespace NewsBot

/-- ASCII lower-casing, modelling `String.prototype.toLowerCase` on the
ASCII strings the program handles, and SQLite `LOWER`/`NOCASE` folding
(which are ASCII-only). -/
def jsToLower (s : String) : String :=
  String.mk (s.data.map Char.toLower)

/-- Whitespace trimming, modelling `String.prototype.trim` (and the SQL
`TRIM` in `markNewsAsSent`, which the source applies to space-padded
titles). -/
def jsTrim (s : String) : String :=
  String.mk
    (((s.data.dropWhile Char.isWhitespace).reverse.dropWhile
      Char.isWhitespace).reverse)

/-- SQLite `COLLATE NOCASE` equality (ASCII case-insensitive). -/
def nocaseEq (a b : String) : Bool :=
  jsToLower a == jsToLower b

/-- Truthiness of an optional JavaScript string: present and non-empty. -/
def strTruthy : Option String → Bool
  | none => false
  | some s => s != ""

/-- Models `opt || dflt` on an optional JavaScript string. -/
def jsOrStr (o : Option String) (d : String) : String :=
  match o with
  | none => d
  | some s => if s = "" then d else s

/-- Models `opt || dflt` on an optional JavaScript number (0 is falsy). -/
def jsOrInt (o : Option Int) (d : Int) : Int :=
  match o with
  | none => d
  | some v => if v = 0 then d else v

/-- Helper for `parseURL`: finds the first `://` separator, returning the
characters before it (the scheme) and after it. -/
def splitSchemeAux : List Char → List Char → Option (List Char × List Char)
  | acc, ':' :: '/' :: '/' :: rest => some (acc.reverse, rest)
  | acc, c :: cs => splitSchemeAux (c :: acc) cs
  | _, [] => none

/-- Models `new URL(s)` for the `scheme://host/path?query#fragment` shapes
the program handles: returns `(origin, pathname)` with the scheme and host
lower-cased (as the WHATWG URL parser does) and the pathname defaulting to
`/`; `none` models the constructor throwing (no `://` or empty host). -/
def parseURL (s : String) : Option (String × String) :=
  match splitSchemeAux [] s.data with
  | none => none
  | some (schemeCs, rest) =>
    if schemeCs.isEmpty then none
    else
      let hostCs := rest.takeWhile (fun c => c != '/' && c != '?' && c != '#')
      let afterHost := rest.dropWhile (fun c => c != '/' && c != '?' && c != '#')
      if hostCs.isEmpty then none
      else
        let origin := String.mk (schemeCs.map Char.toLower) ++ "://" ++
          String.mk (hostCs.map Char.toLower)
        let pathCs := afterHost.takeWhile (fun c => c != '?' && c != '#')
        let pathname := if pathCs.isEmpty then "/" else String.mk pathCs
        some (origin, pathname)

/-- A raw feed item as produced by an adapter (`rss-parser` item or the
mapped Reddit post): every field is optional. -/
structure RawItem where
  guid : Option String := none
  title : Option String := none
  link : Option String := none
  contentSnippet : Option String := none
  pubDate : Option String := none
  deriving Repr, DecidableEq

/-- Source `generateGuid(item)`: prefer the link reduced to
`origin + pathname` (query stripped, raw link when `new URL` throws);
else the source guid; else the title; else `"unknown"`. -/
def generateGuid (item : RawItem) : String :=
  if strTruthy item.link then
    let l := item.link.getD ""
    match parseURL l with
    | some (origin, pathname) => origin ++ pathname
    | none => l
  else if strTruthy item.guid then item.guid.getD ""
  else if strTruthy item.title then item.title.getD ""
  else "unknown"

/-- Source `normalizeTitle(title)`: trimmed and lower-cased, empty on a
falsy title. -/
def normalizeTitle (title : String) : String :=
  if title = "" then "" else jsToLower (jsTrim title)

/-- Source `normalizeLink(link)`: `(origin + pathname).toLowerCase()`,
falling back to lower-casing the raw link when `new URL` throws, empty on
a falsy link. -/
def normalizeLink (link : String) : String :=
  if link = "" then ""
  else
    match parseURL link with
    | some (origin, pathname) => jsToLower (origin ++ pathname)
    | none => jsToLower link

/-- A row of the `news` table.  The `createdAt` column (defaulted by
SQLite, read by no operation the claims mention) is omitted; `isSent`
stores the 0/1 integer column as a `Bool`. -/
structure NewsRow where
  id : Nat
  guid : String
  title : String
  link : String
  feedUrl : String
  isSent : Bool
  deriving Repr, DecidableEq

/-- The `news` table, rows in rowid order. -/
abbrev NewsDB := List NewsRow

/-- Next AUTOINCREMENT id: one more than the largest id in the table. -/
def nextId (db : NewsDB) : Nat :=
  db.foldr (fun r0 m => max r0.id m) 0 + 1

/-- Row predicate of the link tier of `findExistingNews`
(`WHERE link = ?1 OR link = ?2 COLLATE NOCASE` bound to
`(normalizeLink link, link)`): the stored link column equals the
normalized incoming link verbatim, or equals the raw incoming link up to
ASCII case. -/
def linkTierPred (link : String) (r0 : NewsRow) : Bool :=
  r0.link == normalizeLink link || nocaseEq r0.link link

/-- Row predicate of the title tier of `findExistingNews`
(`WHERE title = ? COLLATE NOCASE` bound to `normalizeTitle title`). -/
def titleTierPred (title : String) (r0 : NewsRow) : Bool :=
  nocaseEq r0.title (normalizeTitle title)

/-- Source `findExistingNews(guid, title, link)`: guid tier, then link
tier (when the link is truthy with non-blank trim), then title tier (when
the title is truthy with length above 10).  `stmt.get` is modelled as the
first matching row in rowid order.  The `catch` arms of the source guard
against driver-level errors and have no analogue in the model. -/
def findExistingNews (guid title link : String) (db : NewsDB) : Option NewsRow :=
  let byGuid := if guid ≠ "" then db.find? (fun r0 => r0.guid == guid) else none
  match byGuid with
  | some r0 => some r0
  | none =>
    let byLink :=
      if link ≠ "" ∧ jsTrim link ≠ "" then db.find? (linkTierPred link) else none
    match byLink with
    | some r0 => some r0
    | none =>
      if title ≠ "" ∧ title.length > 10 then db.find? (titleTierPred title)
      else none

/-- Source `insertNews(guid, title, link, feedUrl)`: returns an existing
match untouched, otherwise inserts a new unsent row and re-reads it by
guid.  The `SQLITE_CONSTRAINT_UNIQUE` catch arm fires exactly when a row
with the same guid already exists (possible only when the guid tier of
the lookup was skipped); it re-resolves via `findExistingNews` and falls
back to a guid lookup. -/
def insertNews (guid title link feedUrl : String) (db : NewsDB) :
    NewsDB × Option NewsRow :=
  match findExistingNews guid title link db with
  | some r0 => (db, some r0)
  | none =>
    if db.any (fun r0 => r0.guid == guid) then
      match findExistingNews guid title link db with
      | some r0 => (db, some r0)
      | none => (db, db.find? (fun r0 => r0.guid == guid))
    else
      let row : NewsRow :=
        { id := nextId db, guid := guid, title := title, link := link,
          feedUrl := feedUrl, isSent := false }
      let db1 := db ++ [row]
      (db1, db1.find? (fun r0 => r0.guid == guid))

/-- Source `isNewsSent(guid, title, link)`: whether the resolved existing
record, if any, has `isSent = 1`. -/
def isNewsSent (guid title link : String) (db : NewsDB) : Bool :=
  match findExistingNews guid title link db with
  | some r0 => r0.isSent
  | none => false

/-- The atomic claim statement
`UPDATE news SET isSent = 1 WHERE id = ? AND isSent = 0` (inlined in
`checkForNewNews` and `getLatestNewsForChat`), reported via
`changes > 0`.  The spec names this operation `claimForSending`. -/
def claimForSending (i : Nat) (db : NewsDB) : NewsDB × Bool :=
  let changes := (db.filter (fun r0 => r0.id == i && !r0.isSent)).length
  (db.map (fun r0 =>
      if r0.id == i && !r0.isSent then { r0 with isSent := true } else r0),
    changes > 0)

/-- Source `markNewsAsSent(guid, title, link)`: resolves the existing
record, marks all unsent rows sharing its guid (this first statement
yields the reported `changes`), then best-effort marks unsent rows
matching the link (`WHERE (LOWER(link) = ?1 OR link = ?2) AND isSent = 0`)
and the title (`WHERE LOWER(TRIM(title)) = ? AND isSent = 0`). -/
def markNewsAsSent (guid title link : String) (db : NewsDB) : NewsDB × Bool :=
  match findExistingNews guid title link db with
  | none => (db, false)
  | some existing =>
    let actualGuid := existing.guid
    let changes :=
      (db.filter (fun r0 => r0.guid == actualGuid && !r0.isSent)).length
    let db1 := db.map (fun r0 =>
      if r0.guid == actualGuid && !r0.isSent then { r0 with isSent := true }
      else r0)
    let db2 :=
      if link ≠ "" ∧ jsTrim link ≠ "" then
        db1.map (fun r0 =>
          if (jsToLower r0.link == normalizeLink link || r0.link == link)
              && !r0.isSent then { r0 with isSent := true }
          else r0)
      else db1
    let db3 :=
      if title ≠ "" ∧ title.length > 10 then
        db2.map (fun r0 =>
          if jsToLower (jsTrim r0.title) == normalizeTitle title && !r0.isSent then
            { r0 with isSent := true }
          else r0)
      else db2
    (db3, changes > 0)

/-- Sequence of `n` claim calls on the same item id, modelling the
interleaving of simulated concurrent callers (the driver executes each
statement atomically); returns the final table and each call's result. -/
def claimSeq (i : Nat) : Nat → NewsDB → NewsDB × List Bool
  | 0, db => (db, [])
  | n + 1, db =>
    let p1 := claimForSending i db
    let p2 := claimSeq i n p1.1
    (p2.1, p1.2 :: p2.2)

/-- Source constant `MAX_NEWS_PER_FEED`. -/
def MAX_NEWS_PER_FEED : Nat := 10

/-- Source constant `MAX_MANUAL_NEWS`. -/
def MAX_MANUAL_NEWS : Nat := 5

/-- Subscription state: the global `chatIds` set and the `feedSubscribers`
map (normalized feed name to set of chat ids), both modelled as
duplicate-free lists. -/
structure Registry where
  chatIds : List Int
  feedSubscribers : List (String × List Int)
  deriving Repr, DecidableEq

/-- Source `normalizeFeedName(name)`: `(name || '').trim().toLowerCase()`. -/
def normalizeFeedName (name : String) : String :=
  jsToLower (jsTrim name)

/-- Source `getSubscribersForFeed(feedName)`: the global set united with
the feed-specific set (set union keeps the first occurrence). -/
def getSubscribersForFeed (reg : Registry) (feedName : String) : List Int :=
  let specific :=
    match reg.feedSubscribers.find? (fun p => p.1 == normalizeFeedName feedName) with
    | some p => p.2
    | none => []
  reg.chatIds ++ specific.filter (fun c => !reg.chatIds.contains c)

/-- Source `removeChatFromFeedSubscriptions(chatId)`: deletes the chat
from every per-feed subscriber set. -/
def removeChatFromFeedSubscriptions (c : Int)
    (fs : List (String × List Int)) : List (String × List Int) :=
  fs.map (fun p => (p.1, p.2.filter (fun x => x ≠ c)))

/-- Source `chatHasAnySubscription(chatId)`. -/
def chatHasAnySubscription (c : Int) (reg : Registry) : Bool :=
  reg.chatIds.contains c || reg.feedSubscribers.any (fun p => p.2.contains c)

/-- The `/stop` handler's state effect: `chatIds.delete(chatId)` followed
by `removeChatFromFeedSubscriptions(chatId)`. -/
def stopHandler (c : Int) (reg : Registry) : Registry :=
  { chatIds := reg.chatIds.filter (fun x => x ≠ c),
    feedSubscribers := removeChatFromFeedSubscriptions c reg.feedSubscribers }

/-- Outcome of one `bot.sendMessage` call: success, or a thrown error
carrying `error.response?.statusCode`. -/
inductive SendResult where
  | ok
  | err (status : Option Nat)
  deriving Repr, DecidableEq

/-- Eviction performed on a forbidden/bad-request send failure:
`chatIds.delete(chatId)` plus `removeChatFromFeedSubscriptions(chatId)`. -/
def evictChat (c : Int) (reg : Registry) : Registry :=
  { chatIds := reg.chatIds.filter (fun x => x ≠ c),
    feedSubscribers := removeChatFromFeedSubscriptions c reg.feedSubscribers }

/-- The per-item fan-out loop of `checkForNewNews` (the
`for (const chatId of subscribers)` loop): sends to every subscriber in
turn, counts successes, and on a failure with status 403 or 400 evicts
the recipient; every failure lets the loop continue.  Returns the final
registry, the success count, and the list of attempted recipients. -/
def fanOutItem (subs : List Int) (send : Int → SendResult) (reg : Registry) :
    Registry × Nat × List Int :=
  match subs with
  | [] => (reg, 0, [])
  | c :: rest =>
    match send c with
    | .ok =>
      let p := fanOutItem rest send reg
      (p.1, p.2.1 + 1, c :: p.2.2)
    | .err status =>
      let reg1 :=
        if status = some 403 ∨ status = some 400 then evictChat c reg else reg
      let p := fanOutItem rest send reg1
      (p.1, p.2.1, c :: p.2.2)

/-- A feed descriptor from `rss-feeds.json`. -/
structure FeedConfig where
  name : String
  url : String := ""
  type : Option String := none
  source : Option String := none
  sort : Option String := none
  subreddit : Option String := none
  deriving Repr, DecidableEq

/-- Source `isRedditFeed(feedConfig)`. -/
def isRedditFeed (fc : FeedConfig) : Bool :=
  jsToLower (fc.type.getD "") == "reddit"

/-- Combined mutable state the scheduler touches: the ledger and the
subscription registry. -/
structure BotState where
  db : NewsDB
  reg : Registry
  deriving Repr, DecidableEq

/-- Per-item data the sweep carries from its detection phase to its send
phase (the `newItems` entries of `checkForNewNews`). -/
structure NewItemInfo where
  guid : String
  title : String
  link : String
  dbId : Nat
  deriving Repr, DecidableEq

/-- One iteration of the detection loop of `checkForNewNews` (lines
resolving identity, calling `insertNews`, re-reading `isSent` by id and
double-checking `isNewsSent`); yields the updated ledger and the
`newItems` entry when the item is new and unsent. -/
def phase1Step (feedUrl : String) (db : NewsDB) (item : RawItem) :
    NewsDB × Option NewItemInfo :=
  let itemGuid := generateGuid item
  let itemTitle := jsOrStr item.title "No title"
  let itemLink := jsOrStr item.link ""
  let p := insertNews itemGuid itemTitle itemLink feedUrl db
  match p.2 with
  | none => (p.1, none)
  | some r0 =>
    match p.1.find? (fun r1 => r1.id == r0.id) with
    | none => (p.1, none)
    | some cur =>
      if cur.isSent then (p.1, none)
      else if isNewsSent r0.guid itemTitle itemLink p.1 then (p.1, none)
      else (p.1, some { guid := r0.guid, title := itemTitle,
                        link := itemLink, dbId := r0.id })

/-- The detection loop of `checkForNewNews` over the fetched items. -/
def phase1 (feedUrl : String) : List RawItem → NewsDB → NewsDB × List NewItemInfo
  | [], db => (db, [])
  | item :: rest, db =>
    let p := phase1Step feedUrl db item
    let q := phase1 feedUrl rest p.1
    (q.1, match p.2 with
          | some ni => ni :: q.2
          | none => q.2)

/-- The claim-by-id step of the send loop (`if (dbId)` guarding the
`UPDATE ... WHERE id = ? AND isSent = 0` statement). -/
def claimStepDb (ni : NewItemInfo) (db : NewsDB) : NewsDB × Bool :=
  if ni.dbId ≠ 0 then claimForSending ni.dbId db else (db, false)

/-- The `markNewsAsSent` fallback of the send loop
(`if (!marked) marked = markNewsAsSent(...)`). -/
def markFallback (ni : NewItemInfo) (p : NewsDB × Bool) : NewsDB × Bool :=
  if p.2 then (p.1, true) else markNewsAsSent ni.guid ni.title ni.link p.1

/-- One iteration of the send loop of `checkForNewNews`: re-check by db
id, re-check `isNewsSent`, claim atomically by id with a
`markNewsAsSent` fallback, and only on a successful claim fan out to the
subscriber snapshot.  Returns the updated state, the success count, and
the attempted recipients. -/
def sendPhaseStep (subs : List Int) (send : Int → SendResult)
    (st : BotState) (ni : NewItemInfo) : BotState × Nat × List Int :=
  let alreadySentById :=
    if ni.dbId ≠ 0 then
      match st.db.find? (fun r0 => r0.id == ni.dbId) with
      | some cur => cur.isSent
      | none => false
    else false
  if alreadySentById then (st, 0, [])
  else if isNewsSent ni.guid ni.title ni.link st.db then (st, 0, [])
  else
    let p2 := markFallback ni (claimStepDb ni st.db)
    if !p2.2 then ({ st with db := p2.1 }, 0, [])
    else
      let f := fanOutItem subs send st.reg
      ({ db := p2.1, reg := f.1 }, f.2.1, f.2.2)

/-- The send loop of `checkForNewNews` over the detected new items. -/
def sendPhase (subs : List Int) (send : Int → SendResult) :
    List NewItemInfo → BotState → BotState × Nat × List Int
  | [], st => (st, 0, [])
  | ni :: rest, st =>
    let p := sendPhaseStep subs send st ni
    let q := sendPhase subs send rest p.1
    (q.1, p.2.1 + q.2.1, p.2.2 ++ q.2.2)

/-- The per-feed body of the periodic sweep `checkForNewNews`, given the
already-fetched items: detection phase, then the subscriber-set check
(`if (subscribers.size === 0) continue`), then the send phase over the
subscriber snapshot.  Returns the updated state, the total success count,
and the attempted recipients. -/
def processFeedSweep (feed : FeedConfig) (items : List RawItem)
    (send : Int → SendResult) (st : BotState) : BotState × Nat × List Int :=
  if items.isEmpty then (st, 0, [])
  else
    let itemsToCheck := items.take MAX_NEWS_PER_FEED
    let p := phase1 feed.url itemsToCheck st.db
    let st1 : BotState := { st with db := p.1 }
    if p.2.isEmpty then (st1, 0, [])
    else
      let subs := getSubscribersForFeed st1.reg feed.name
      if subs.isEmpty then (st1, 0, [])
      else sendPhase subs send p.2 st1

/-- One iteration of the per-feed item loop of `getLatestNewsForChat`
(the manual `/news` path), projected on the ledger: `insertNews`,
re-check by id, `isNewsSent` double-check, then the atomic claim by id;
a send failure leaves the row marked.  Returns the updated ledger and
whether the item was claimed (and hence sent to the requesting chat). -/
def manualStep (feedUrl : String) (db : NewsDB) (item : RawItem) :
    NewsDB × Bool :=
  let itemGuid := generateGuid item
  let itemTitle := jsOrStr item.title "No title"
  let itemLink := jsOrStr item.link ""
  let p := insertNews itemGuid itemTitle itemLink feedUrl db
  match p.2 with
  | none => (p.1, false)
  | some r0 =>
    match p.1.find? (fun r1 => r1.id == r0.id) with
    | none => (p.1, false)
    | some cur =>
      if cur.isSent then (p.1, false)
      else if isNewsSent r0.guid itemTitle itemLink p.1 then (p.1, false)
      else
        let q := claimForSending r0.id p.1
        (q.1, q.2)

/-- The per-feed body of `getLatestNewsForChat`, projected on the ledger:
the item loop over the first `MAX_MANUAL_NEWS` fetched items. -/
def manualSweepFeed (feedUrl : String) (items : List RawItem) (db : NewsDB) :
    NewsDB × Nat :=
  (items.take MAX_MANUAL_NEWS).foldl
    (fun acc item =>
      let p := manualStep feedUrl acc.1 item
      (p.1, acc.2 + (if p.2 then 1 else 0)))
    (db, 0)

/-- The `settings` key-value table (`key` is the primary key). -/
structure Settings where
  entries : List (String × String)
  deriving Repr, DecidableEq

/-- Source `getSetting(key)`. -/
def getSetting (key : String) (s : Settings) : Option String :=
  (s.entries.find? (fun p => p.1 == key)).map (fun p => p.2)

/-- Source `setSetting(key, value)` (`INSERT ... ON CONFLICT ... UPDATE`). -/
def setSetting (key value : String) (s : Settings) : Settings :=
  if s.entries.any (fun p => p.1 == key) then
    ⟨s.entries.map (fun p => if p.1 == key then (key, value) else p)⟩
  else ⟨s.entries ++ [(key, value)]⟩

/-- Source `deleteSetting(key)`. -/
def deleteSetting (key : String) (s : Settings) : Settings :=
  ⟨s.entries.filter (fun p => p.1 != key)⟩

/-- Body of a Reddit token-endpoint response, as consumed by the source
(`access_token`, `expires_in`, `refresh_token`, each possibly absent). -/
structure TokenData where
  access_token : Option String := none
  expires_in : Option Int := none
  refresh_token : Option String := none
  deriving Repr, DecidableEq

/-- Value of a string of decimal digits. -/
def decDigitsToNat (cs : List Char) : Nat :=
  cs.foldl (fun n c => n * 10 + (c.toNat - 48)) 0

/-- Models `Number(raw)` on the decimal strings the program writes for
`reddit_access_expires_at` (`String(timestamp)`): `none` models `NaN`. -/
def parseExpiry (raw : String) : Option Int :=
  if raw ≠ "" ∧ raw.data.all Char.isDigit then some (decDigitsToNat raw.data) else none

/-- The `expiresAt` value computed by `getRedditAccessToken`
(`expiresAtRaw ? Number(expiresAtRaw) : 0`), with `none` for `NaN`. -/
def expiresAtOf (raw : Option String) : Option Int :=
  match raw with
  | none => some 0
  | some s => if s = "" then some 0 else parseExpiry s

/-- Truthiness of the parsed `expiresAt` (`NaN` and `0` are falsy). -/
def expiresAtTruthy (e : Option Int) : Bool :=
  match e with
  | some v => v ≠ 0
  | none => false

/-- Source `getRedditAccessToken()`.  `now` models `Date.now()`;
`refreshResult` is the oracle for the one possible
`refreshRedditAccessToken` exchange (`Except.error` models the exchange
throwing).  Returns the updated settings, the token result (`none` is
the not-configured result), and the number of refresh exchanges
performed.  A refresh response without `access_token` would make the
driver reject the `NULL` binding; this is modelled as a thrown error. -/
def getRedditAccessToken (now : Int) (refreshResult : Except Unit TokenData)
    (s : Settings) : Except Unit (Settings × Option String × Nat) :=
  match getSetting "reddit_refresh_token" s with
  | none => .ok (s, none, 0)
  | some _ =>
    let accessToken := getSetting "reddit_access_token" s
    let expiresAt := expiresAtOf (getSetting "reddit_access_expires_at" s)
    if strTruthy accessToken ∧ expiresAtTruthy expiresAt = true ∧
        now < expiresAt.getD 0 - 60 * 1000 then
      .ok (s, accessToken, 0)
    else
      match refreshResult with
      | .error e => .error e
      | .ok data =>
        match data.access_token with
        | none => .error ()
        | some newAccessToken =>
          let newExpiresAt := now + jsOrInt data.expires_in 3600 * 1000
          let s1 := setSetting "reddit_access_token" newAccessToken s
          let s2 := setSetting "reddit_access_expires_at"
            (toString newExpiresAt) s1
          .ok (s2, some newAccessToken, 1)

/-- Result the `/reddit_code` handler renders back to the chat. -/
inductive RedditCodeOutcome where
  | noCode
  | notConfigured
  | authFailed
  | noRefreshToken
  | success
  deriving Repr, DecidableEq

/-- The `/reddit_code` handler: guards on a present code and Reddit
configuration, exchanges the code via `exchangeRedditCodeForTokens`
(oracle `exchangeResult`, `Except.error` models the exchange being
rejected), persists whichever of the refresh and access tokens are
present, invalidates the cached username, clears the pending anti-forgery
state, and reports failure when no refresh token was returned; a thrown
exchange is caught and reported as failure with no settings change. -/
def redditCodeHandler (now : Int) (hasConfig : Bool) (chatId : Int)
    (code : String) (exchangeResult : Except Unit TokenData)
    (s : Settings) (states : List (Int × String)) :
    Settings × List (Int × String) × RedditCodeOutcome :=
  if code = "" then (s, states, .noCode)
  else if !hasConfig then (s, states, .notConfigured)
  else
    match exchangeResult with
    | .error _ => (s, states, .authFailed)
    | .ok data =>
      let s1 :=
        match data.refresh_token with
        | some rt => setSetting "reddit_refresh_token" rt s
        | none => s
      let s2 :=
        match data.access_token with
        | some at1 =>
          setSetting "reddit_access_expires_at"
            (toString (now + jsOrInt data.expires_in 3600 * 1000))
            (setSetting "reddit_access_token" at1 s1)
        | none => s1
      let s3 := deleteSetting "reddit_username" s2
      let states1 := states.filter (fun p => p.1 ≠ chatId)
      match data.refresh_token with
      | none => (s3, states1, .noRefreshToken)
      | some _ => (s3, states1, .success)

/-- One Reddit API listing entry (`child.data`), with the fields the
mapper reads. -/
structure RedditPost where
  id : Option String := none
  title : Option String := none
  permalink : String := ""
  selftext : Option String := none
  url : Option String := none
  deriving Repr, DecidableEq

/-- A Reddit listing response: `ok` is `response.ok`; `children` the
parsed `data.data.children`. -/
structure RedditListing where
  ok : Bool
  children : List RedditPost
  deriving Repr, DecidableEq

/-- Oracles for the network effects of `fetchRedditFeedItems`:
the `getRedditAccessToken` outcome (it throws when the refresh exchange
fails), the `getRedditUsername` outcome (it throws when the identity
lookup fails), and the listing fetch (`Except.error` models the network
call rejecting). -/
structure RedditEnv where
  tokenResult : Except Unit (Option String)
  usernameResult : Except Unit (Option String)
  listingResult : Except Unit RedditListing

/-- The mapping of listing children to raw items in
`fetchRedditFeedItems` (filter on a truthy id, then build the item with
a `reddit:`-namespaced guid and a permalink link; `selftext` truncation
is modelled by `String.take 200`). -/
def mapRedditChildren (children : List RedditPost) : List RawItem :=
  (children.filter (fun child => strTruthy child.id)).map (fun post =>
    { guid := some ("reddit:" ++ post.id.getD ""),
      title := some (jsOrStr post.title "No title"),
      link := some ("https://www.reddit.com" ++ post.permalink),
      contentSnippet := some
        (if strTruthy post.selftext then String.mk ((post.selftext.getD "").data.take 200)
         else jsOrStr post.url ""),
      pubDate := some "" })

/-- Source `fetchRedditFeedItems(feedConfig, limit)`: requires a token
(propagating a thrown refresh), resolves the endpoint from the source
mode (an unknown mode, a missing subreddit, or an unresolvable username
yields an empty list), fetches the listing (propagating a rejected
call), and yields an empty list on a non-OK response. -/
def fetchRedditFeedItems (fc : FeedConfig) (env : RedditEnv) :
    Except Unit (List RawItem) :=
  match env.tokenResult with
  | .error e => .error e
  | .ok none => .ok []
  | .ok (some _) =>
    let source := jsToLower (jsOrStr fc.source "home")
    let fetchListing : Except Unit (List RawItem) :=
      match env.listingResult with
      | .error e => .error e
      | .ok resp =>
        if !resp.ok then .ok []
        else .ok (mapRedditChildren resp.children)
    if source = "home" then fetchListing
    else if source = "saved" then
      match env.usernameResult with
      | .error e => .error e
      | .ok none => .ok []
      | .ok (some _) => fetchListing
    else if source = "subreddit" then
      if !strTruthy fc.subreddit then .ok []
      else fetchListing
    else .ok []

/-- Source `fetchFeedItems(feedConfig, limit)`: dispatches to the Reddit
adapter for Reddit feeds (outside any try/catch, so its exceptions
propagate), and for RSS feeds parses the feed URL (`rssResult` is the
oracle for `parser.parseURL`; a rejection is caught and yields an empty
list, and `feed?.items || []` yields the parsed items). -/
def fetchFeedItems (fc : FeedConfig) (env : RedditEnv)
    (rssResult : Except Unit (List RawItem)) : Except Unit (List RawItem) :=
  if isRedditFeed fc then fetchRedditFeedItems fc env
  else
    match rssResult with
    | .ok items => .ok items
    | .error _ => .ok []

/-- The feed loop of `checkForNewNews`, given each configured feed with
the oracles for its fetch: fetches (an uncaught exception aborts the
whole sweep, skipping every later feed) and processes each feed in
order.  Returns the final state and the names of the feeds processed. -/
def checkForNewNews (send : Int → SendResult) :
    List (FeedConfig × RedditEnv × Except Unit (List RawItem)) → BotState →
    Except Unit (BotState × List String)
  | [], st => .ok (st, [])
  | (fc, env, rssResult) :: rest, st =>
    match fetchFeedItems fc env rssResult with
    | .error e => .error e
    | .ok items =>
      let p := processFeedSweep fc items send st
      match checkForNewNews send rest p.1 with
      | .error e => .error e
      | .ok q => .ok (q.1, fc.name :: q.2)

/-- The ledger-mutating operations the claims range over: the store
primitives `insertNews`, `findExistingNews`, the atomic claim,
`markNewsAsSent`, and the ledger projection of either sweep path. -/
inductive LedgerOp where
  | insertOp (guid title link feedUrl : String)
  | findOp (guid title link : String)
  | claimOp (i : Nat)
  | markOp (guid title link : String)
  | periodicSweepOp (feed : FeedConfig) (items : List RawItem)
      (send : Int → SendResult) (reg : Registry)
  | manualSweepOp (feedUrl : String) (items : List RawItem)

/-- Effect of a `LedgerOp` on the `news` table (`findOp` reads only). -/
def applyLedgerOp (op : LedgerOp) (db : NewsDB) : NewsDB :=
  match op with
  | .insertOp g t l f => (insertNews g t l f db).1
  | .findOp _ _ _ => db
  | .claimOp i => (claimForSending i db).1
  | .markOp g t l => (markNewsAsSent g t l db).1
  | .periodicSweepOp feed items send reg =>
    (processFeedSweep feed items send { db := db, reg := reg }).1.db
  | .manualSweepOp feedUrl items => (manualSweepFeed feedUrl items db).1

/-- A chat holds no subscription of any kind in the registry. -/
def NotInRegistry (c : Int) (reg : Registry) : Prop :=
  c ∉ reg.chatIds ∧ ∀ p ∈ reg.feedSubscribers, c ∉ p.2

end NewsBot

namespace NewsBot

theorem not_mem_filter_ne (c : Int) (l : List Int) :
    c ∉ l.filter (fun x => x ≠ c) := by
  intro h
  have h2 := (List.mem_filter.mp h).2
  simp at h2

theorem notInRegistry_evictChat_self (c : Int) (reg : Registry) :
    NotInRegistry c (evictChat c reg) := by
  constructor
  · exact not_mem_filter_ne c reg.chatIds
  · intro p hp
    simp only [evictChat, removeChatFromFeedSubscriptions, List.mem_map] at hp
    obtain ⟨q, _, hq⟩ := hp
    subst hq
    exact not_mem_filter_ne c q.2

theorem notInRegistry_evictChat_mono (c d : Int) (reg : Registry)
    (h : NotInRegistry c reg) : NotInRegistry c (evictChat d reg) := by
  constructor
  · intro hmem
    simp only [evictChat, List.mem_filter] at hmem
    exact h.1 hmem.1
  · intro p hp hmem
    simp only [evictChat, removeChatFromFeedSubscriptions, List.mem_map] at hp
    obtain ⟨q, hq, heq⟩ := hp
    subst heq
    simp only [List.mem_filter] at hmem
    exact h.2 q hq hmem.1

theorem notInRegistry_fanOutItem (c : Int) (subs : List Int)
    (send : Int → SendResult) (reg : Registry) (h : NotInRegistry c reg) :
    NotInRegistry c (fanOutItem subs send reg).1 := by
  induction subs generalizing reg with
  | nil => exact h
  | cons d rest ih =>
    simp only [fanOutItem]
    cases send d with
    | ok => exact ih reg h
    | err status =>
      by_cases hst : status = some 403 ∨ status = some 400
      · simp only [if_pos hst]
        exact ih _ (notInRegistry_evictChat_mono c d reg h)
      · simp only [if_neg hst]
        exact ih reg h

theorem fanOutItem_attempts (subs : List Int) (send : Int → SendResult) :
    ∀ reg : Registry, (fanOutItem subs send reg).2.2 = subs := by
  induction subs with
  | nil => intro reg; rfl
  | cons d rest ih =>
    intro reg
    simp only [fanOutItem]
    cases send d with
    | ok => simpa using ih reg
    | err status =>
      by_cases hst : status = some 403 ∨ status = some 400
      · simp only [if_pos hst]
        simpa using ih _
      · simp only [if_neg hst]
        simpa using ih reg

theorem fanOutItem_evicts (c : Int) (subs : List Int)
    (send : Int → SendResult) :
    ∀ reg : Registry, c ∈ subs →
      (send c = .err (some 403) ∨ send c = .err (some 400)) →
      NotInRegistry c (fanOutItem subs send reg).1 := by
  induction subs with
  | nil =>
    intro reg hc _
    cases hc
  | cons d rest ih =>
    intro reg hc hfail
    simp only [fanOutItem]
    by_cases hcd : c = d
    · subst hcd
      have hsend : ∃ st, send c = .err st ∧ (st = some 403 ∨ st = some 400) := by
        rcases hfail with hf | hf
        · exact ⟨some 403, hf, Or.inl rfl⟩
        · exact ⟨some 400, hf, Or.inr rfl⟩
      obtain ⟨st, hst, hstv⟩ := hsend
      rw [hst]
      simp only [if_pos hstv]
      exact notInRegistry_fanOutItem c rest send _
        (notInRegistry_evictChat_self c reg)
    · have hcrest : c ∈ rest := by
        rcases List.mem_cons.mp hc with h | h
        · exact absurd h hcd
        · exact h
      cases send d with
      | ok => exact ih reg hcrest hfail
      | err status =>
        by_cases hst : status = some 403 ∨ status = some 400
        · simp only [if_pos hst]
          exact ih _ hcrest hfail
        · simp only [if_neg hst]
          exact ih reg hcrest hfail

theorem fanOutItem_no_evict (subs : List Int) (send : Int → SendResult) :
    (∀ c ∈ subs, ∀ st, send c = .err st → st ≠ some 403 ∧ st ≠ some 400) →
    ∀ reg : Registry, (fanOutItem subs send reg).1 = reg := by
  induction subs with
  | nil =>
    intro _ reg
    rfl
  | cons d rest ih =>
    intro hnone reg
    simp only [fanOutItem]
    cases hsd : send d with
    | ok =>
      exact ih (fun c hc st hst => hnone c (List.mem_cons_of_mem d hc) st hst) reg
    | err status =>
      have hne := hnone d (List.mem_cons_self d rest) status hsd
      have hcond : ¬(status = some 403 ∨ status = some 400) := by
        rintro (h | h)
        · exact hne.1 h
        · exact hne.2 h
      simp only [if_neg hcond]
      exact ih (fun c hc st hst => hnone c (List.mem_cons_of_mem d hc) st hst) reg

/-- C8: during fan-out, a send failure with HTTP status 403 or 400 evicts
the recipient from the global subscriber set and from every per-feed
subscriber set; every recipient in the subscriber list is attempted (any
failure lets the fan-out continue through the remaining subscribers), and
failures with any other status leave the registry untouched. -/
theorem fanout_eviction (subs : List Int) (send : Int → SendResult)
    (reg : Registry) :
    (fanOutItem subs send reg).2.2 = subs ∧
    (∀ c, c ∈ subs →
      (send c = .err (some 403) ∨ send c = .err (some 400)) →
      NotInRegistry c (fanOutItem subs send reg).1) ∧
    ((∀ c ∈ subs, ∀ st, send c = .err st → st ≠ some 403 ∧ st ≠ some 400) →
      (fanOutItem subs send reg).1 = reg) :=
  ⟨fanOutItem_attempts subs send reg,
    fun c hc hfail => fanOutItem_evicts c subs send reg hc hfail,
    fun hnone => fanOutItem_no_evict subs send hnone reg⟩

/-- Witness for C8 at a concrete fan-out: chat 5 fails with status 403
and ends up in no subscriber set, while the whole list is attempted. -/
theorem fanout_eviction_witness :
    ((5 : Int) ∈ [(5 : Int), 6] ∧
      (fun c : Int => if c = 5 then SendResult.err (some 403) else .ok) 5 =
        .err (some 403)) ∧
    NotInRegistry 5
      ((fanOutItem [5, 6] (fun c => if c = 5 then .err (some 403) else .ok)
        ⟨[5, 6], [("bbc news", [5, 7])]⟩).1) :=
  ⟨⟨by decide, by decide⟩,
    (fanout_eviction [5, 6] (fun c => if c = 5 then .err (some 403) else .ok)
      ⟨[5, 6], [("bbc news", [5, 7])]⟩).2.1 5 (by decide) (Or.inl (by decide))⟩

theorem map_id_of_mem {α : Type} (f : α → α) :
    ∀ (l : List α), (∀ a ∈ l, f a = a) → l.map f = l := by
  intro l
  induction l with
  | nil => intro _; rfl
  | cons x xs ih =>
    intro h
    simp only [List.map_cons]
    rw [h x (List.mem_cons_self x xs),
      ih (fun a ha => h a (List.mem_cons_of_mem x ha))]

theorem count_true_replicate_false (m : Nat) :
    List.count true (List.replicate m false) = 0 := by
  induction m with
  | zero => rfl
  | succ k ih => simp [List.replicate_succ, List.count_cons, ih]

theorem claimForSending_true_iff (i : Nat) (db : NewsDB) :
    (claimForSending i db).2 = true ↔
      ∃ r ∈ db, r.id = i ∧ r.isSent = false := by
  simp only [claimForSending, decide_eq_true_eq]
  have hpos : (List.filter (fun r0 => r0.id == i && !r0.isSent) db).length > 0 ↔
      List.filter (fun r0 => r0.id == i && !r0.isSent) db ≠ [] :=
    List.length_pos
  rw [hpos, Ne, List.filter_eq_nil_iff]
  push_neg
  constructor
  · rintro ⟨r, hr, hp⟩
    refine ⟨r, hr, ?_, ?_⟩
    · exact beq_iff_eq.mp (Bool.and_elim_left hp)
    · simpa using Bool.and_elim_right hp
  · rintro ⟨r, hr, hid, hsent⟩
    exact ⟨r, hr, by simp [hid, hsent]⟩

theorem claimForSending_all_sent (i : Nat) (db : NewsDB) :
    ∀ r ∈ (claimForSending i db).1, r.id = i → r.isSent = true := by
  intro r hr hid
  simp only [claimForSending, List.mem_map] at hr
  obtain ⟨a, _, ha⟩ := hr
  by_cases hcond : (a.id == i && !a.isSent) = true
  · rw [if_pos hcond] at ha
    subst ha
    rfl
  · rw [if_neg hcond] at ha
    subst ha
    simp only [Bool.and_eq_true, beq_iff_eq, Bool.not_eq_true', not_and] at hcond
    exact Bool.not_eq_false _ ▸ (by
      by_contra hfalse
      exact absurd (hcond hid) (by simpa using hfalse))

theorem claimForSending_of_all_sent (i : Nat) (db : NewsDB)
    (h : ∀ r ∈ db, r.id = i → r.isSent = true) :
    claimForSending i db = (db, false) := by
  simp only [claimForSending]
  have hmap : (db.map (fun r0 =>
      if r0.id == i && !r0.isSent then { r0 with isSent := true } else r0)) = db := by
    apply map_id_of_mem
    intro r hr
    have hcond : (r.id == i && !r.isSent) = false := by
      by_cases hid : r.id = i
      · simp [hid, h r hr hid]
      · simp [hid]
    rw [hcond]
    simp
  have hfilter : (db.filter (fun r0 => r0.id == i && !r0.isSent)) = [] := by
    rw [List.filter_eq_nil_iff]
    intro r hr
    by_cases hid : r.id = i
    · simp [hid, h r hr hid]
    · simp [hid]
  rw [hmap, hfilter]
  simp

theorem claimSeq_of_all_sent (i : Nat) (n : Nat) (db : NewsDB)
    (h : ∀ r ∈ db, r.id = i → r.isSent = true) :
    claimSeq i n db = (db, List.replicate n false) := by
  induction n with
  | zero => rfl
  | succ m ih =>
    simp only [claimSeq, claimForSending_of_all_sent i db h, ih,
      List.replicate_succ]

/-- C1: the claim-for-sending statement
(`UPDATE news SET isSent = 1 WHERE id = ? AND isSent = 0`, reported via
`changes > 0`) returns true exactly when this call transitioned an
unsent row with the given surrogate id, and for any sequence of `n ≥ 1`
claim calls on an item id whose row is initially unsent, exactly one
call returns true. -/
theorem claim_exactly_one_winner (db : NewsDB) (i : Nat) :
    ((claimForSending i db).2 = true ↔
      ∃ r ∈ db, r.id = i ∧ r.isSent = false) ∧
    ∀ n : Nat, 1 ≤ n → (∃ r ∈ db, r.id = i ∧ r.isSent = false) →
      ((claimSeq i n db).2.count true = 1) := by
  refine ⟨claimForSending_true_iff i db, ?_⟩
  intro n hn hunsent
  obtain ⟨m, rfl⟩ : ∃ m, n = m + 1 := ⟨n - 1, by omega⟩
  have hfirst : (claimForSending i db).2 = true :=
    (claimForSending_true_iff i db).mpr hunsent
  simp only [claimSeq]
  rw [claimSeq_of_all_sent i m (claimForSending i db).1
    (claimForSending_all_sent i db), hfirst]
  simp [count_true_replicate_false]

/-- Witness for C1 at a concrete table: three sequential claim calls on
an initially unsent row with id 1 yield exactly one `true`. -/
theorem claim_exactly_one_winner_witness :
    (claimSeq 1 3 [⟨1, "g", "Breaking story", "https://x.example/a", "f",
      false⟩]).2.count true = 1 :=
  (claim_exactly_one_winner
    [⟨1, "g", "Breaking story", "https://x.example/a", "f", false⟩] 1).2
    3 (by decide) ⟨⟨1, "g", "Breaking story", "https://x.example/a", "f",
      false⟩, by decide, rfl, rfl⟩

theorem guid_tier_none (g : String) (db : NewsDB)
    (hg : g = "" ∨ db.find? (fun r0 => r0.guid == g) = none) :
    (if g ≠ "" then db.find? (fun r0 => r0.guid == g) else none) = none := by
  rcases hg with hg | hg
  · simp [hg]
  · by_cases hne : g = ""
    · simp [hne]
    · simpa [hne] using hg

theorem link_tier_none (l : String) (db : NewsDB)
    (hl : l = "" ∨ jsTrim l = "" ∨ db.find? (linkTierPred l) = none) :
    (if l ≠ "" ∧ jsTrim l ≠ "" then db.find? (linkTierPred l) else none) = none := by
  rcases hl with hl | hl | hl
  · simp [hl]
  · simp [hl]
  · by_cases hc : l ≠ "" ∧ jsTrim l ≠ ""
    · simpa [hc] using hl
    · simp [if_neg hc]

theorem title_tier_none (t : String) (db : NewsDB)
    (ht : t = "" ∨ t.length ≤ 10 ∨ db.find? (titleTierPred t) = none) :
    (if t ≠ "" ∧ t.length > 10 then db.find? (titleTierPred t) else none) = none := by
  rcases ht with ht | ht | ht
  · simp [ht]
  · have hc : ¬(t ≠ "" ∧ t.length > 10) := by
      rintro ⟨_, hgt⟩
      omega
    simp [if_neg hc]
  · by_cases hc : t ≠ "" ∧ t.length > 10
    · simpa [hc] using ht
    · simp [if_neg hc]

/-- C2 fails on the code: the stored item keeps its raw link (with query
string) in the `link` column, and the incoming item with a different
guid has the same normalized link, yet `insertNews` does not resolve to
the stored record: it inserts a second row with the new guid. -/
theorem insert_link_dedup_counterexample :
    normalizeLink "https://x.example/a?x=2" =
      normalizeLink "https://x.example/a?x=1" ∧
    ("g2" : String) ≠ "g1" ∧
    (insertNews "g2" "t2" "https://x.example/a?x=2" "f"
        [⟨1, "g1", "t", "https://x.example/a?x=1", "f", false⟩]).2 =
      some ⟨2, "g2", "t2", "https://x.example/a?x=2", "f", false⟩ ∧
    (insertNews "g2" "t2" "https://x.example/a?x=2" "f"
        [⟨1, "g1", "t", "https://x.example/a?x=1", "f", false⟩]).1 =
      [⟨1, "g1", "t", "https://x.example/a?x=1", "f", false⟩,
        ⟨2, "g2", "t2", "https://x.example/a?x=2", "f", false⟩] := by
  refine ⟨by decide, by decide, by decide, by decide⟩

/-- C2 amended: when no stored row carries the incoming guid and the
first stored row matched by the link tier exists — that is, its stored
link column equals the incoming normalized link verbatim, or equals the
raw incoming link up to ASCII case — `insertNews` returns that stored
record unchanged (its guid stays authoritative) and inserts nothing.  A
stored row whose link merely shares the same normalized form (for
example one retaining a query string) is not matched. -/
theorem insert_resolves_by_stored_link (db : NewsDB) (g t l f : String)
    (r : NewsRow) (hguid : ∀ r0 ∈ db, r0.guid ≠ g)
    (hl : l ≠ "") (hlt : jsTrim l ≠ "")
    (hfind : db.find? (linkTierPred l) = some r) :
    insertNews g t l f db = (db, some r) := by
  have hbyGuid :
      (if g ≠ "" then db.find? (fun r0 => r0.guid == g) else none) = none := by
    apply guid_tier_none
    right
    rw [List.find?_eq_none]
    intro r0 hr0
    simpa using hguid r0 hr0
  have hfe : findExistingNews g t l db = some r := by
    simp only [findExistingNews]
    rw [hbyGuid]
    simp only []
    rw [if_pos ⟨hl, hlt⟩, hfind]
  simp only [insertNews, hfe]

/-- Witness for the amended C2: a stored row whose link column is already
in normalized form is resolved by an incoming item with a fresh guid and
an equivalent link, the stored guid `g1` staying authoritative. -/
theorem insert_resolves_by_stored_link_witness :
    insertNews "g9" "s" "https://X.example/A?q=1" "f"
        [⟨1, "g1", "t", "https://x.example/a", "f", false⟩] =
      ([⟨1, "g1", "t", "https://x.example/a", "f", false⟩],
        some ⟨1, "g1", "t", "https://x.example/a", "f", false⟩) :=
  insert_resolves_by_stored_link
    [⟨1, "g1", "t", "https://x.example/a", "f", false⟩]
    "g9" "s" "https://X.example/A?q=1" "f"
    ⟨1, "g1", "t", "https://x.example/a", "f", false⟩
    (by decide) (by decide) (by decide) (by decide)

/-- C4 fails on the code at the link tier: a stored record whose
normalized link equals the incoming normalized link (both reduce to
`https://news.example/story`) is not returned, because the query
compares the stored raw link column only against the incoming
normalized link verbatim or the raw incoming link. -/
theorem findExisting_link_tier_counterexample :
    normalizeLink "https://news.example/story?id=7" =
      normalizeLink "https://news.example/story?id=8" ∧
    ("gx" : String) ≠ "gy" ∧
    findExistingNews "gx" "abc" "https://news.example/story?id=8"
      [⟨1, "gy", "abc", "https://news.example/story?id=7", "f", false⟩] =
      none := by
  refine ⟨by decide, by decide, by decide⟩

/-- C4 amended: `findExistingNews` applies three tiers in precedence
order with the first hit winning — exact guid (skipped for an empty
guid), then the link tier (only for a non-empty, non-blank link, and
matching a stored link column equal to the incoming normalized link
verbatim or to the raw incoming link up to ASCII case, not every
normalized-link coincidence), then the title tier (only for a title of
length strictly greater than 10, matching a stored title equal to the
trimmed lower-cased incoming title up to ASCII case) — and returns
nothing when every applicable tier misses. -/
theorem findExisting_three_tier (g t l : String) (db : NewsDB) :
    (∀ r, g ≠ "" → db.find? (fun r0 => r0.guid == g) = some r →
      findExistingNews g t l db = some r) ∧
    (∀ r, (g = "" ∨ db.find? (fun r0 => r0.guid == g) = none) →
      l ≠ "" → jsTrim l ≠ "" → db.find? (linkTierPred l) = some r →
      findExistingNews g t l db = some r) ∧
    (∀ r, (g = "" ∨ db.find? (fun r0 => r0.guid == g) = none) →
      (l = "" ∨ jsTrim l = "" ∨ db.find? (linkTierPred l) = none) →
      t ≠ "" → t.length > 10 → db.find? (titleTierPred t) = some r →
      findExistingNews g t l db = some r) ∧
    ((g = "" ∨ db.find? (fun r0 => r0.guid == g) = none) →
      (l = "" ∨ jsTrim l = "" ∨ db.find? (linkTierPred l) = none) →
      (t = "" ∨ t.length ≤ 10 ∨ db.find? (titleTierPred t) = none) →
      findExistingNews g t l db = none) := by
  refine ⟨?_, ?_, ?_, ?_⟩
  · intro r hg hfind
    simp only [findExistingNews]
    rw [if_pos hg, hfind]
  · intro r hg hl hlt hfind
    simp only [findExistingNews]
    rw [guid_tier_none g db hg]
    simp only []
    rw [if_pos ⟨hl, hlt⟩, hfind]
  · intro r hg hl ht hlen hfind
    simp only [findExistingNews]
    rw [guid_tier_none g db hg]
    simp only []
    rw [link_tier_none l db hl]
    simp only []
    rw [if_pos ⟨ht, hlen⟩, hfind]
  · intro hg hl ht
    simp only [findExistingNews]
    rw [guid_tier_none g db hg]
    simp only []
    rw [link_tier_none l db hl]
    simp only []
    rw [title_tier_none t db ht]

/-- Witness for the amended C4: the guid tier wins over a link-tier
match, and the title tier fires only past length 10. -/
theorem findExisting_three_tier_witness :
    findExistingNews "gA" "longer than ten chars" "https://x.example/a"
        [⟨1, "gB", "other title here", "https://x.example/a", "f", false⟩,
          ⟨2, "gA", "longer than ten chars", "", "f", true⟩] =
      some ⟨2, "gA", "longer than ten chars", "", "f", true⟩ ∧
    findExistingNews "gZ" "longer than ten chars" ""
        [⟨1, "gB", "other title here", "https://x.example/a", "f", false⟩,
          ⟨2, "gA", "Longer Than Ten Chars ", "", "f", true⟩] =
      none :=
  ⟨(findExisting_three_tier "gA" "longer than ten chars"
        "https://x.example/a"
        [⟨1, "gB", "other title here", "https://x.example/a", "f", false⟩,
          ⟨2, "gA", "longer than ten chars", "", "f", true⟩]).1
      ⟨2, "gA", "longer than ten chars", "", "f", true⟩ (by decide) (by decide),
    (findExisting_three_tier "gZ" "longer than ten chars" ""
        [⟨1, "gB", "other title here", "https://x.example/a", "f", false⟩,
          ⟨2, "gA", "Longer Than Ten Chars ", "", "f", true⟩]).2.2.2
      (Or.inr (by decide)) (Or.inl rfl) (Or.inr (Or.inr (by decide)))⟩

theorem mem_map_sent {u : NewsRow → NewsRow}
    (hu : ∀ x, x.isSent = true → u x = x) {db : NewsDB} {r : NewsRow}
    (hr : r ∈ db) (hs : r.isSent = true) : r ∈ db.map u :=
  List.mem_map.mpr ⟨r, hr, hu r hs⟩

theorem cond_map_keeps (cond : Prop) [Decidable cond] (u : NewsRow → NewsRow)
    (hu : ∀ x, x.isSent = true → u x = x) {db : NewsDB} {r : NewsRow}
    (hr : r ∈ db) (hs : r.isSent = true) :
    r ∈ (if cond then db.map u else db) := by
  by_cases h : cond
  · rw [if_pos h]
    exact mem_map_sent hu hr hs
  · rw [if_neg h]
    exact hr

theorem insertNews_keeps (g t l f : String) (db : NewsDB) (r : NewsRow)
    (hr : r ∈ db) : r ∈ (insertNews g t l f db).1 := by
  simp only [insertNews]
  split
  · exact hr
  · split
    · split
      · exact hr
      · exact hr
    · exact List.mem_append_left _ hr

theorem claimForSending_keeps (i : Nat) (db : NewsDB) (r : NewsRow)
    (hr : r ∈ db) (hs : r.isSent = true) : r ∈ (claimForSending i db).1 := by
  apply mem_map_sent (fun x hx => ?_) hr hs
  simp [hx]

theorem markNewsAsSent_keeps (g t l : String) (db : NewsDB) (r : NewsRow)
    (hr : r ∈ db) (hs : r.isSent = true) : r ∈ (markNewsAsSent g t l db).1 := by
  simp only [markNewsAsSent]
  split
  · exact hr
  next existing heq =>
    have h1 : r ∈ db.map (fun r0 =>
        if r0.guid == existing.guid && !r0.isSent then { r0 with isSent := true }
        else r0) :=
      mem_map_sent (fun x hx => by simp [hx]) hr hs
    have h2 := cond_map_keeps (l ≠ "" ∧ jsTrim l ≠ "")
      (fun r0 =>
        if (jsToLower r0.link == normalizeLink l || r0.link == l) && !r0.isSent
        then { r0 with isSent := true } else r0)
      (fun x hx => by simp [hx]) h1 hs
    have h3 := cond_map_keeps (t ≠ "" ∧ t.length > 10)
      (fun r0 =>
        if jsToLower (jsTrim r0.title) == normalizeTitle t && !r0.isSent
        then { r0 with isSent := true } else r0)
      (fun x hx => by simp [hx]) h2 hs
    exact h3

theorem claimStepDb_keeps (ni : NewItemInfo) (db : NewsDB) (r : NewsRow)
    (hr : r ∈ db) (hs : r.isSent = true) : r ∈ (claimStepDb ni db).1 := by
  simp only [claimStepDb]
  split
  · exact claimForSending_keeps ni.dbId db r hr hs
  · exact hr

theorem markFallback_keeps (ni : NewItemInfo) (p : NewsDB × Bool) (r : NewsRow)
    (hr : r ∈ p.1) (hs : r.isSent = true) : r ∈ (markFallback ni p).1 := by
  simp only [markFallback]
  split
  · exact hr
  · exact markNewsAsSent_keeps ni.guid ni.title ni.link p.1 r hr hs

theorem phase1Step_keeps (feedUrl : String) (db : NewsDB) (item : RawItem)
    (r : NewsRow) (hr : r ∈ db) : r ∈ (phase1Step feedUrl db item).1 := by
  have hins : ∀ g t l, r ∈ (insertNews g t l feedUrl db).1 :=
    fun g t l => insertNews_keeps g t l feedUrl db r hr
  simp only [phase1Step]
  split
  · exact hins _ _ _
  · split
    · exact hins _ _ _
    · split
      · exact hins _ _ _
      · split
        · exact hins _ _ _
        · exact hins _ _ _

theorem phase1_keeps (feedUrl : String) (items : List RawItem) (db : NewsDB)
    (r : NewsRow) (hr : r ∈ db) : r ∈ (phase1 feedUrl items db).1 := by
  induction items generalizing db with
  | nil => exact hr
  | cons item rest ih =>
    simp only [phase1]
    exact ih _ (phase1Step_keeps feedUrl db item r hr)

theorem sendPhaseStep_keeps (subs : List Int) (send : Int → SendResult)
    (st : BotState) (ni : NewItemInfo) (r : NewsRow)
    (hr : r ∈ st.db) (hs : r.isSent = true) :
    r ∈ (sendPhaseStep subs send st ni).1.db := by
  have hkeep : r ∈ (markFallback ni (claimStepDb ni st.db)).1 :=
    markFallback_keeps ni (claimStepDb ni st.db) r
      (claimStepDb_keeps ni st.db r hr hs) hs
  simp only [sendPhaseStep]
  repeat' split
  all_goals first | exact hr | exact hkeep

theorem sendPhase_keeps (subs : List Int) (send : Int → SendResult)
    (nis : List NewItemInfo) (st : BotState) (r : NewsRow)
    (hr : r ∈ st.db) (hs : r.isSent = true) :
    r ∈ (sendPhase subs send nis st).1.db := by
  induction nis generalizing st with
  | nil => exact hr
  | cons ni rest ih =>
    simp only [sendPhase]
    exact ih _ (sendPhaseStep_keeps subs send st ni r hr hs)

theorem processFeedSweep_keeps (feed : FeedConfig) (items : List RawItem)
    (send : Int → SendResult) (st : BotState) (r : NewsRow)
    (hr : r ∈ st.db) (hs : r.isSent = true) :
    r ∈ (processFeedSweep feed items send st).1.db := by
  have hp1 : r ∈ (phase1 feed.url (items.take MAX_NEWS_PER_FEED) st.db).1 :=
    phase1_keeps feed.url (items.take MAX_NEWS_PER_FEED) st.db r hr
  simp only [processFeedSweep]
  split
  · exact hr
  · split
    · exact hp1
    · split
      · exact hp1
      · exact sendPhase_keeps _ send _ _ r hp1 hs

theorem manualStep_keeps (feedUrl : String) (db : NewsDB) (item : RawItem)
    (r : NewsRow) (hr : r ∈ db) (hs : r.isSent = true) :
    r ∈ (manualStep feedUrl db item).1 := by
  have hins : ∀ g t l, r ∈ (insertNews g t l feedUrl db).1 :=
    fun g t l => insertNews_keeps g t l feedUrl db r hr
  simp only [manualStep]
  split
  · exact hins _ _ _
  · split
    · exact hins _ _ _
    · split
      · exact hins _ _ _
      · split
        · exact hins _ _ _
        · exact claimForSending_keeps _ _ r (hins _ _ _) hs

theorem manualSweepFeed_keeps (feedUrl : String) (items : List RawItem)
    (db : NewsDB) (r : NewsRow) (hr : r ∈ db) (hs : r.isSent = true) :
    r ∈ (manualSweepFeed feedUrl items db).1 := by
  simp only [manualSweepFeed]
  generalize (items.take MAX_MANUAL_NEWS) = taken
  suffices h : ∀ (l : List RawItem) (acc : NewsDB × Nat), r ∈ acc.1 →
      r ∈ (l.foldl (fun acc item =>
        let p := manualStep feedUrl acc.1 item
        (p.1, acc.2 + (if p.2 then 1 else 0))) acc).1 by
    exact h taken (db, 0) hr
  intro l
  induction l with
  | nil => intro acc hacc; exact hacc
  | cons item rest ih =>
    intro acc hacc
    simp only [List.foldl_cons]
    exact ih _ (manualStep_keeps feedUrl acc.1 item r hacc hs)

theorem applyLedgerOp_keeps (op : LedgerOp) (db : NewsDB) (r : NewsRow)
    (hr : r ∈ db) (hs : r.isSent = true) : r ∈ applyLedgerOp op db := by
  cases op with
  | insertOp g t l f => exact insertNews_keeps g t l f db r hr
  | findOp g t l => exact hr
  | claimOp i => exact claimForSending_keeps i db r hr hs
  | markOp g t l => exact markNewsAsSent_keeps g t l db r hr hs
  | periodicSweepOp feed items send reg =>
    exact processFeedSweep_keeps feed items send { db := db, reg := reg } r hr hs
  | manualSweepOp feedUrl items =>
    exact manualSweepFeed_keeps feedUrl items db r hr hs

/-- C3: the sent flag is monotonic — under any sequence of store and
scheduler operations (insert, find, atomic claim, hygiene marking, and
the ledger effect of either sweep path), a row that is marked sent stays
in the table marked sent: no operation ever flips `isSent` back to 0. -/
theorem sent_flag_monotonic (ops : List LedgerOp) (db : NewsDB) (r : NewsRow)
    (hr : r ∈ db) (hs : r.isSent = true) :
    r ∈ ops.foldl (fun d op => applyLedgerOp op d) db := by
  induction ops generalizing db with
  | nil => exact hr
  | cons op rest ih =>
    simp only [List.foldl_cons]
    exact ih (applyLedgerOp op db) (applyLedgerOp_keeps op db r hr hs)

/-- Witness for C3: a concrete sent row survives a concrete sequence of
operations (an insert, a claim, a hygiene mark, and both sweep paths). -/
theorem sent_flag_monotonic_witness :
    (⟨1, "g1", "some title", "https://x.example/a", "f", true⟩ : NewsRow) ∈
      ([LedgerOp.insertOp "g2" "another title" "https://x.example/b" "f",
        LedgerOp.claimOp 1, LedgerOp.markOp "g1" "some title" "https://x.example/a",
        LedgerOp.manualSweepOp "f"
          [RawItem.mk none (some "fresh item appeared")
            (some "https://x.example/c") none none],
        LedgerOp.periodicSweepOp ⟨"BBC", "f", none, none, none, none⟩
          [RawItem.mk none (some "fresh item appeared")
            (some "https://x.example/c") none none]
          (fun _ => SendResult.ok) ⟨[], []⟩].foldl
        (fun d op => applyLedgerOp op d)
        [⟨1, "g1", "some title", "https://x.example/a", "f", true⟩]) :=
  sent_flag_monotonic _ _ _ (by decide) rfl

theorem insertNews_db_shape (g t l f : String) (db : NewsDB) :
    (insertNews g t l f db).1 = db ∨
      ∃ row : NewsRow, (insertNews g t l f db).1 = db ++ [row] ∧
        row.isSent = false := by
  simp only [insertNews]
  split
  · exact Or.inl rfl
  · split
    · split
      · exact Or.inl rfl
      · exact Or.inl rfl
    · exact Or.inr ⟨_, rfl, rfl⟩

theorem phase1Step_db_shape (feedUrl : String) (db : NewsDB) (item : RawItem) :
    (phase1Step feedUrl db item).1 = db ∨
      ∃ row : NewsRow, (phase1Step feedUrl db item).1 = db ++ [row] ∧
        row.isSent = false := by
  have hins := insertNews_db_shape (generateGuid item)
    (jsOrStr item.title "No title") (jsOrStr item.link "") feedUrl db
  simp only [phase1Step]
  split
  · exact hins
  · split
    · exact hins
    · split
      · exact hins
      · split
        · exact hins
        · exact hins

theorem phase1_db_shape (feedUrl : String) (items : List RawItem) (db : NewsDB) :
    ∃ tail : List NewsRow, (phase1 feedUrl items db).1 = db ++ tail ∧
      ∀ r ∈ tail, r.isSent = false := by
  induction items generalizing db with
  | nil => exact ⟨[], by simp [phase1], by simp⟩
  | cons item rest ih =>
    simp only [phase1]
    obtain ⟨tail, htail, hunsent⟩ := ih (phase1Step feedUrl db item).1
    rcases phase1Step_db_shape feedUrl db item with hstep | ⟨row, hstep, hrow⟩
    · exact ⟨tail, by rw [htail, hstep], hunsent⟩
    · refine ⟨row :: tail, ?_, ?_⟩
      · rw [htail, hstep, List.append_assoc]
        rfl
      · intro r hr
        rcases List.mem_cons.mp hr with h | h
        · subst h; exact hrow
        · exact hunsent r h

/-- C5: when the resolved subscriber set of a feed is empty, the periodic
sweep inserts any new items unsent and skips sending entirely: the
ledger grows only by unsent rows, the registry is untouched, no send is
attempted, and the success count is zero — every new item remains
available for a later sweep. -/
theorem empty_subscribers_skip (feed : FeedConfig) (items : List RawItem)
    (send : Int → SendResult) (st : BotState)
    (hsubs : getSubscribersForFeed st.reg feed.name = []) :
    ∃ newRows : List NewsRow,
      (processFeedSweep feed items send st).1.db = st.db ++ newRows ∧
      (∀ r ∈ newRows, r.isSent = false) ∧
      (processFeedSweep feed items send st).1.reg = st.reg ∧
      (processFeedSweep feed items send st).2.2 = [] ∧
      (processFeedSweep feed items send st).2.1 = 0 := by
  simp only [processFeedSweep]
  split
  · exact ⟨[], by simp, by simp, rfl, rfl, rfl⟩
  · obtain ⟨tail, htail, hunsent⟩ :=
      phase1_db_shape feed.url (items.take MAX_NEWS_PER_FEED) st.db
    split
    · exact ⟨tail, htail, hunsent, rfl, rfl, rfl⟩
    · have hempty : (getSubscribersForFeed
          (({ st with db := (phase1 feed.url (items.take MAX_NEWS_PER_FEED)
            st.db).1 } : BotState)).reg feed.name).isEmpty = true := by
        simp [hsubs]
      rw [if_pos hempty]
      exact ⟨tail, htail, hunsent, rfl, rfl, rfl⟩

/-- Witness for C5: a sweep over one fresh item with no subscribers
anywhere stores the item unsent and sends nothing. -/
theorem empty_subscribers_skip_witness :
    getSubscribersForFeed (⟨[], []⟩ : Registry) "BBC" = [] ∧
    ∃ newRows : List NewsRow,
      (processFeedSweep ⟨"BBC", "f", none, none, none, none⟩
        [RawItem.mk none (some "Breaking story happened today")
          (some "https://x.example/a?x=1") none none]
        (fun _ => SendResult.ok) ⟨[], ⟨[], []⟩⟩).1.db = [] ++ newRows ∧
      (∀ r ∈ newRows, r.isSent = false) ∧
      (processFeedSweep ⟨"BBC", "f", none, none, none, none⟩
        [RawItem.mk none (some "Breaking story happened today")
          (some "https://x.example/a?x=1") none none]
        (fun _ => SendResult.ok) ⟨[], ⟨[], []⟩⟩).1.reg = ⟨[], []⟩ ∧
      (processFeedSweep ⟨"BBC", "f", none, none, none, none⟩
        [RawItem.mk none (some "Breaking story happened today")
          (some "https://x.example/a?x=1") none none]
        (fun _ => SendResult.ok) ⟨[], ⟨[], []⟩⟩).2.2 = [] ∧
      (processFeedSweep ⟨"BBC", "f", none, none, none, none⟩
        [RawItem.mk none (some "Breaking story happened today")
          (some "https://x.example/a?x=1") none none]
        (fun _ => SendResult.ok) ⟨[], ⟨[], []⟩⟩).2.1 = 0 :=
  ⟨rfl, empty_subscribers_skip ⟨"BBC", "f", none, none, none, none⟩
    [RawItem.mk none (some "Breaking story happened today")
      (some "https://x.example/a?x=1") none none]
    (fun _ => SendResult.ok) ⟨[], ⟨[], []⟩⟩ rfl⟩

theorem find?_key_map_set (k v : String) :
    ∀ (l : List (String × String)), l.any (fun p => p.1 == k) = true →
      (l.map (fun p => if p.1 == k then (k, v) else p)).find?
        (fun p => p.1 == k) = some (k, v) := by
  intro l
  induction l with
  | nil => intro h; cases h
  | cons a rest ih =>
    intro hany
    by_cases hk : a.1 = k
    · simp [List.find?, hk]
    · have hrest : rest.any (fun p => p.1 == k) = true := by
        simp only [List.any_cons, Bool.or_eq_true] at hany
        rcases hany with h | h
        · exact absurd (by simpa using h) hk
        · exact h
      simp only [List.map_cons]
      rw [if_neg (by simpa using hk)]
      rw [List.find?_cons_of_neg _ (by simpa using hk)]
      exact ih hrest

theorem find?_key_map_set_other (k k2 v : String) (h : k ≠ k2) :
    ∀ (l : List (String × String)),
      (l.map (fun p => if p.1 == k2 then (k2, v) else p)).find?
        (fun p => p.1 == k) = l.find? (fun p => p.1 == k) := by
  intro l
  induction l with
  | nil => rfl
  | cons a rest ih =>
    simp only [List.map_cons]
    by_cases hk2 : a.1 = k2
    · rw [if_pos (by simpa using hk2)]
      rw [List.find?_cons_of_neg _ (by simpa using (Ne.symm h)),
        List.find?_cons_of_neg _ (by simp [hk2]; exact fun hh => h (hh ▸ hk2 ▸ rfl))]
      exact ih
    · rw [if_neg (by simpa using hk2)]
      by_cases hk : a.1 = k
      · rw [List.find?_cons_of_pos _ (by simpa using hk),
          List.find?_cons_of_pos _ (by simpa using hk)]
      · rw [List.find?_cons_of_neg _ (by simpa using hk),
          List.find?_cons_of_neg _ (by simpa using hk)]
        exact ih

theorem find?_key_append (k v : String) :
    ∀ (l : List (String × String)),
      (l ++ [(k, v)]).find? (fun p => p.1 == k) =
        ((l.find? (fun p => p.1 == k)).getD (k, v)) := by
  intro l
  induction l with
  | nil => simp [List.find?]
  | cons a rest ih =>
    by_cases hk : a.1 = k
    · simp only [List.cons_append]
      rw [List.find?_cons_of_pos _ (by simpa using hk),
        List.find?_cons_of_pos _ (by simpa using hk)]
      rfl
    · simp only [List.cons_append]
      rw [List.find?_cons_of_neg _ (by simpa using hk),
        List.find?_cons_of_neg _ (by simpa using hk)]
      exact ih

theorem find?_key_filter_del (k : String) :
    ∀ (l : List (String × String)),
      (l.filter (fun p => p.1 != k)).find? (fun p => p.1 == k) = none := by
  intro l
  induction l with
  | nil => rfl
  | cons a rest ih =>
    by_cases hk : a.1 = k
    · simp only [List.filter_cons]
      rw [if_neg (by simp [hk])]
      exact ih
    · simp only [List.filter_cons]
      rw [if_pos (by simpa using hk)]
      rw [List.find?_cons_of_neg _ (by simpa using hk)]
      exact ih

theorem find?_key_filter_del_other (k k2 : String) (h : k ≠ k2) :
    ∀ (l : List (String × String)),
      (l.filter (fun p => p.1 != k2)).find? (fun p => p.1 == k) =
        l.find? (fun p => p.1 == k) := by
  intro l
  induction l with
  | nil => rfl
  | cons a rest ih =>
    by_cases hk2 : a.1 = k2
    · simp only [List.filter_cons]
      rw [if_neg (by simp [hk2])]
      rw [List.find?_cons_of_neg _ (by simp [hk2]; exact fun hh => h (hh ▸ hk2 ▸ rfl))]
      exact ih
    · simp only [List.filter_cons]
      rw [if_pos (by simpa using hk2)]
      by_cases hk : a.1 = k
      · rw [List.find?_cons_of_pos _ (by simpa using hk),
          List.find?_cons_of_pos _ (by simpa using hk)]
      · rw [List.find?_cons_of_neg _ (by simpa using hk),
          List.find?_cons_of_neg _ (by simpa using hk)]
        exact ih

theorem getSetting_set_same (k v : String) (s : Settings) :
    getSetting k (setSetting k v s) = some v := by
  simp only [getSetting, setSetting]
  by_cases hany : s.entries.any (fun p => p.1 == k) = true
  · rw [if_pos hany, find?_key_map_set k v s.entries hany]
    rfl
  · rw [if_neg hany]
    have hnone : s.entries.find? (fun p => p.1 == k) = none := by
      rw [List.find?_eq_none]
      intro p hp hpk
      exact hany (List.any_eq_true.mpr ⟨p, hp, hpk⟩)
    simp [find?_key_append k v s.entries, hnone]

theorem getSetting_set_other (k k2 v : String) (h : k ≠ k2) (s : Settings) :
    getSetting k (setSetting k2 v s) = getSetting k s := by
  simp only [getSetting, setSetting]
  by_cases hany : s.entries.any (fun p => p.1 == k2) = true
  · rw [if_pos hany, find?_key_map_set_other k k2 v h s.entries]
  · rw [if_neg hany]
    have : s.entries.find? (fun p => p.1 == k) =
        ((s.entries ++ [(k2, v)]).find? (fun p => p.1 == k)) := by
      clear hany
      induction s.entries with
      | nil =>
        rw [List.nil_append,
          List.find?_cons_of_neg _ (by simpa using Ne.symm h)]
      | cons a rest ih =>
        by_cases hk : a.1 = k
        · simp only [List.cons_append]
          rw [List.find?_cons_of_pos _ (by simpa using hk),
            List.find?_cons_of_pos _ (by simpa using hk)]
        · simp only [List.cons_append]
          rw [List.find?_cons_of_neg _ (by simpa using hk),
            List.find?_cons_of_neg _ (by simpa using hk)]
          exact ih
    rw [← this]

theorem getSetting_delete_same (k : String) (s : Settings) :
    getSetting k (deleteSetting k s) = none := by
  simp only [getSetting, deleteSetting]
  rw [find?_key_filter_del k s.entries]
  rfl

theorem getSetting_delete_other (k k2 : String) (h : k ≠ k2) (s : Settings) :
    getSetting k (deleteSetting k2 s) = getSetting k s := by
  simp only [getSetting, deleteSetting]
  rw [find?_key_filter_del_other k k2 h s.entries]

/-- C6: `getRedditAccessToken` returns the cached token unchanged,
persisting nothing and performing no exchange, when a cached token
exists and its stored expiry is strictly more than 60 seconds away;
when the stored expiry is within 60 seconds or passed it performs
exactly one refresh exchange, persists the new token and expiry, and
returns the new token; and with no refresh token on file it returns the
not-configured result with no exchange. -/
theorem token_refresh_boundary (s : Settings) (now : Int)
    (rr : Except Unit TokenData) :
    (getSetting "reddit_refresh_token" s = none →
      getRedditAccessToken now rr s = .ok (s, none, 0)) ∧
    (∀ rt a raw v, getSetting "reddit_refresh_token" s = some rt →
      getSetting "reddit_access_token" s = some a → a ≠ "" →
      getSetting "reddit_access_expires_at" s = some raw →
      parseExpiry raw = some v → v ≠ 0 → now < v - 60 * 1000 →
      getRedditAccessToken now rr s = .ok (s, some a, 0)) ∧
    (∀ rt raw v d newTok, getSetting "reddit_refresh_token" s = some rt →
      getSetting "reddit_access_expires_at" s = some raw →
      parseExpiry raw = some v → v - 60 * 1000 ≤ now →
      rr = .ok d → d.access_token = some newTok →
      ∃ s2, getRedditAccessToken now rr s = .ok (s2, some newTok, 1) ∧
        getSetting "reddit_access_token" s2 = some newTok ∧
        getSetting "reddit_access_expires_at" s2 =
          some (toString (now + jsOrInt d.expires_in 3600 * 1000)) ∧
        getSetting "reddit_refresh_token" s2 =
          getSetting "reddit_refresh_token" s) := by
  refine ⟨?_, ?_, ?_⟩
  · intro hnone
    simp [getRedditAccessToken, hnone]
  · intro rt a raw v hrt ha hane hraw hparse hv hlt
    have hrawne : raw ≠ "" := by
      intro hc
      rw [hc] at hparse
      simp [parseExpiry] at hparse
    have hexp : expiresAtOf (getSetting "reddit_access_expires_at" s) = some v := by
      rw [hraw]
      simp [expiresAtOf, hrawne, hparse]
    simp only [getRedditAccessToken, hrt, ha, hexp]
    rw [if_pos ⟨by simp [strTruthy, hane], by simp [expiresAtTruthy, hv], by
      simpa using hlt⟩]
  · intro rt raw v d newTok hrt hraw hparse hge hrr hat
    have hrawne : raw ≠ "" := by
      intro hc
      rw [hc] at hparse
      simp [parseExpiry] at hparse
    have hexp : expiresAtOf (getSetting "reddit_access_expires_at" s) = some v := by
      rw [hraw]
      simp [expiresAtOf, hrawne, hparse]
    have hcond : ¬(strTruthy (getSetting "reddit_access_token" s) ∧
        expiresAtTruthy (expiresAtOf (getSetting "reddit_access_expires_at" s)) = true ∧
        now < (expiresAtOf (getSetting "reddit_access_expires_at" s)).getD 0
          - 60 * 1000) := by
      rintro ⟨-, -, hlt⟩
      rw [hexp] at hlt
      simp only [Option.getD_some] at hlt
      omega
    refine ⟨setSetting "reddit_access_expires_at"
      (toString (now + jsOrInt d.expires_in 3600 * 1000))
      (setSetting "reddit_access_token" newTok s), ?_, ?_, ?_, ?_⟩
    · simp only [getRedditAccessToken, hrt]
      rw [if_neg hcond, hrr]
      simp only [hat]
    · rw [getSetting_set_other _ _ _ (by decide) _, getSetting_set_same]
    · rw [getSetting_set_same]
    · rw [getSetting_set_other _ _ _ (by decide) _,
        getSetting_set_other _ _ _ (by decide) _]

/-- Witness for C6 at concrete settings: a token valid far in the future
is returned from cache with no refresh; an expired one triggers exactly
one refresh that persists and returns the new token; an empty settings
table yields the not-configured result. -/
theorem token_refresh_boundary_witness :
    getRedditAccessToken 0 (.ok ⟨some "x", none, none⟩) ⟨[]⟩ =
      .ok (⟨[]⟩, none, 0) ∧
    getRedditAccessToken 1000 (.ok ⟨some "x", none, none⟩)
      ⟨[("reddit_refresh_token", "rt"), ("reddit_access_token", "tok"),
        ("reddit_access_expires_at", "5000000")]⟩ =
      .ok (⟨[("reddit_refresh_token", "rt"), ("reddit_access_token", "tok"),
        ("reddit_access_expires_at", "5000000")]⟩, some "tok", 0) ∧
    ∃ s2, getRedditAccessToken 4950000 (.ok ⟨some "newtok", some 3600, none⟩)
      ⟨[("reddit_refresh_token", "rt"), ("reddit_access_token", "tok"),
        ("reddit_access_expires_at", "5000000")]⟩ = .ok (s2, some "newtok", 1) ∧
      getSetting "reddit_access_token" s2 = some "newtok" ∧
      getSetting "reddit_access_expires_at" s2 =
        some (toString ((4950000 : Int) + jsOrInt (some 3600) 3600 * 1000)) ∧
      getSetting "reddit_refresh_token" s2 =
        getSetting "reddit_refresh_token"
          ⟨[("reddit_refresh_token", "rt"), ("reddit_access_token", "tok"),
            ("reddit_access_expires_at", "5000000")]⟩ :=
  ⟨(token_refresh_boundary ⟨[]⟩ 0 (.ok ⟨some "x", none, none⟩)).1 rfl,
    (token_refresh_boundary _ 1000 (.ok ⟨some "x", none, none⟩)).2.1
      "rt" "tok" "5000000" 5000000 rfl rfl (by decide) rfl (by decide)
      (by decide) (by decide),
    (token_refresh_boundary _ 4950000 (.ok ⟨some "newtok", some 3600, none⟩)).2.2
      "rt" "5000000" 5000000 ⟨some "newtok", some 3600, none⟩ "newtok"
      rfl rfl (by decide) (by decide) rfl rfl⟩

/-- C7: completing OAuth setup via `/reddit_code` exchanges the code
for tokens; a rejected exchange fails with no settings change, an
exchange response without a refresh token is reported as a failure, and
a successful exchange persists the refresh token and the access token
with its expiry and invalidates any cached username. -/
theorem oauth_complete_setup (now : Int) (chatId : Int) (code : String)
    (ex : Except Unit TokenData) (s : Settings)
    (states : List (Int × String)) (hcode : code ≠ "") :
    (ex = .error () →
      redditCodeHandler now true chatId code ex s states =
        (s, states, .authFailed)) ∧
    (∀ d, ex = .ok d → d.refresh_token = none →
      (redditCodeHandler now true chatId code ex s states).2.2 =
        .noRefreshToken) ∧
    (∀ d rt a, ex = .ok d → d.refresh_token = some rt →
      d.access_token = some a →
      (redditCodeHandler now true chatId code ex s states).2.2 = .success ∧
      getSetting "reddit_refresh_token"
        (redditCodeHandler now true chatId code ex s states).1 = some rt ∧
      getSetting "reddit_access_token"
        (redditCodeHandler now true chatId code ex s states).1 = some a ∧
      getSetting "reddit_access_expires_at"
        (redditCodeHandler now true chatId code ex s states).1 =
        some (toString (now + jsOrInt d.expires_in 3600 * 1000)) ∧
      getSetting "reddit_username"
        (redditCodeHandler now true chatId code ex s states).1 = none) := by
  refine ⟨?_, ?_, ?_⟩
  · intro herr
    simp [redditCodeHandler, hcode, herr]
  · intro d hok hnort
    simp [redditCodeHandler, hcode, hok, hnort]
  · intro d rt a hok hrt hat
    have hres : (redditCodeHandler now true chatId code ex s states).1 =
        deleteSetting "reddit_username"
          (setSetting "reddit_access_expires_at"
            (toString (now + jsOrInt d.expires_in 3600 * 1000))
            (setSetting "reddit_access_token" a
              (setSetting "reddit_refresh_token" rt s))) := by
      simp [redditCodeHandler, hcode, hok, hrt, hat]
    refine ⟨by simp [redditCodeHandler, hcode, hok, hrt, hat], ?_, ?_, ?_, ?_⟩
    · rw [hres, getSetting_delete_other _ _ (by decide),
        getSetting_set_other _ _ _ (by decide),
        getSetting_set_other _ _ _ (by decide), getSetting_set_same]
    · rw [hres, getSetting_delete_other _ _ (by decide),
        getSetting_set_other _ _ _ (by decide), getSetting_set_same]
    · rw [hres, getSetting_delete_other _ _ (by decide), getSetting_set_same]
    · rw [hres, getSetting_delete_same]

/-- Witness for C7 at concrete inputs: a rejected exchange changes
nothing and fails, a refresh-token-less response is reported as failure,
and a full response persists all credential fields and clears the cached
username. -/
theorem oauth_complete_setup_witness :
    redditCodeHandler 100 true 7 "abc" (.error ())
      ⟨[("reddit_username", "old")]⟩ [] =
      (⟨[("reddit_username", "old")]⟩, [], .authFailed) ∧
    (redditCodeHandler 100 true 7 "abc" (.ok ⟨some "a1", some 3600, none⟩)
      ⟨[("reddit_username", "old")]⟩ []).2.2 = .noRefreshToken ∧
    ((redditCodeHandler 100 true 7 "abc"
        (.ok ⟨some "a1", some 3600, some "r1"⟩)
        ⟨[("reddit_username", "old")]⟩ []).2.2 = .success ∧
      getSetting "reddit_refresh_token"
        (redditCodeHandler 100 true 7 "abc"
          (.ok ⟨some "a1", some 3600, some "r1"⟩)
          ⟨[("reddit_username", "old")]⟩ []).1 = some "r1" ∧
      getSetting "reddit_access_token"
        (redditCodeHandler 100 true 7 "abc"
          (.ok ⟨some "a1", some 3600, some "r1"⟩)
          ⟨[("reddit_username", "old")]⟩ []).1 = some "a1" ∧
      getSetting "reddit_access_expires_at"
        (redditCodeHandler 100 true 7 "abc"
          (.ok ⟨some "a1", some 3600, some "r1"⟩)
          ⟨[("reddit_username", "old")]⟩ []).1 =
        some (toString ((100 : Int) + jsOrInt (some 3600) 3600 * 1000)) ∧
      getSetting "reddit_username"
        (redditCodeHandler 100 true 7 "abc"
          (.ok ⟨some "a1", some 3600, some "r1"⟩)
          ⟨[("reddit_username", "old")]⟩ []).1 = none) :=
  ⟨(oauth_complete_setup 100 7 "abc" (.error ())
      ⟨[("reddit_username", "old")]⟩ [] (by decide)).1 rfl,
    (oauth_complete_setup 100 7 "abc" (.ok ⟨some "a1", some 3600, none⟩)
      ⟨[("reddit_username", "old")]⟩ [] (by decide)).2.1
      ⟨some "a1", some 3600, none⟩ rfl rfl,
    (oauth_complete_setup 100 7 "abc" (.ok ⟨some "a1", some 3600, some "r1"⟩)
      ⟨[("reddit_username", "old")]⟩ [] (by decide)).2.2
      ⟨some "a1", some 3600, some "r1"⟩ "r1" "a1" rfl rfl rfl⟩

/-- C9 fails on the code: the Reddit branch of `fetchFeedItems` sits
outside the try/catch, so a rejected network call (here the token
refresh throwing inside `getRedditAccessToken`) propagates instead of
yielding an empty sequence, and the sweep aborts before the following
feed is processed. -/
theorem fetch_fail_open_counterexample :
    fetchFeedItems ⟨"Reddit Home", "", some "reddit", some "home", none, none⟩
      ⟨.error (), .ok none, .ok ⟨true, []⟩⟩ (.ok []) = .error () ∧
    checkForNewNews (fun _ => .ok)
      [(⟨"Reddit Home", "", some "reddit", some "home", none, none⟩,
        ⟨.error (), .ok none, .ok ⟨true, []⟩⟩, .ok []),
        (⟨"BBC", "u", none, none, none, none⟩,
          ⟨.ok none, .ok none, .ok ⟨true, []⟩⟩, .ok [])]
      ⟨[], ⟨[], []⟩⟩ = .error () :=
  ⟨rfl, rfl⟩

/-- C9 amended: fail-open holds for the RSS branch (any fetch or parse
failure yields an empty sequence, never an exception) and for every
handled Reddit case — missing refresh token, unknown source mode,
subreddit mode without a subreddit name, saved mode with an
unresolvable username, and a non-OK listing response in each of the
home, saved and subreddit modes — and a sweep whose fetches all return
processes every configured feed in order; but a rejected network call
inside the Reddit branch propagates out of `fetchFeedItems` and aborts
the sweep. -/
theorem fetch_fail_open_amended :
    (∀ (fc : FeedConfig) (env : RedditEnv)
        (rssResult : Except Unit (List RawItem)),
      (isRedditFeed fc = false →
        ∃ items, fetchFeedItems fc env rssResult = .ok items) ∧
      (isRedditFeed fc = false → rssResult = .error () →
        fetchFeedItems fc env rssResult = .ok []) ∧
      (isRedditFeed fc = true → env.tokenResult = .ok none →
        fetchFeedItems fc env rssResult = .ok []) ∧
      (∀ tk resp, isRedditFeed fc = true → env.tokenResult = .ok (some tk) →
        jsToLower (jsOrStr fc.source "home") = "home" →
        env.listingResult = .ok resp → resp.ok = false →
        fetchFeedItems fc env rssResult = .ok []) ∧
      (∀ tk, isRedditFeed fc = true → env.tokenResult = .ok (some tk) →
        jsToLower (jsOrStr fc.source "home") ≠ "home" →
        jsToLower (jsOrStr fc.source "home") ≠ "saved" →
        jsToLower (jsOrStr fc.source "home") ≠ "subreddit" →
        fetchFeedItems fc env rssResult = .ok []) ∧
      (∀ tk, isRedditFeed fc = true → env.tokenResult = .ok (some tk) →
        jsToLower (jsOrStr fc.source "home") = "subreddit" →
        strTruthy fc.subreddit = false →
        fetchFeedItems fc env rssResult = .ok []) ∧
      (∀ tk, isRedditFeed fc = true → env.tokenResult = .ok (some tk) →
        jsToLower (jsOrStr fc.source "home") = "saved" →
        env.usernameResult = .ok none →
        fetchFeedItems fc env rssResult = .ok []) ∧
      (∀ tk u resp, isRedditFeed fc = true → env.tokenResult = .ok (some tk) →
        jsToLower (jsOrStr fc.source "home") = "saved" →
        env.usernameResult = .ok (some u) →
        env.listingResult = .ok resp → resp.ok = false →
        fetchFeedItems fc env rssResult = .ok []) ∧
      (∀ tk resp, isRedditFeed fc = true → env.tokenResult = .ok (some tk) →
        jsToLower (jsOrStr fc.source "home") = "subreddit" →
        strTruthy fc.subreddit = true →
        env.listingResult = .ok resp → resp.ok = false →
        fetchFeedItems fc env rssResult = .ok [])) ∧
    (∀ (send : Int → SendResult)
        (entries : List (FeedConfig × RedditEnv × Except Unit (List RawItem)))
        (st : BotState),
      (∀ e ∈ entries, ∃ its, fetchFeedItems e.1 e.2.1 e.2.2 = Except.ok its) →
      ∃ stq names, checkForNewNews send entries st = .ok (stq, names) ∧
        names = entries.map (fun e => e.1.name)) := by
  constructor
  · intro fc env rssResult
    refine ⟨?_, ?_, ?_, ?_, ?_, ?_, ?_, ?_, ?_⟩
    · intro hnotr
      simp only [fetchFeedItems, hnotr, Bool.false_eq_true, if_false]
      cases rssResult with
      | ok items => exact ⟨items, rfl⟩
      | error e => exact ⟨[], rfl⟩
    · intro hnotr herr
      simp [fetchFeedItems, hnotr, herr]
    · intro hred htok
      simp [fetchFeedItems, fetchRedditFeedItems, hred, htok]
    · intro tk resp hred htok hsrc hlist hok
      simp [fetchFeedItems, fetchRedditFeedItems, hred, htok, hsrc, hlist, hok]
    · intro tk hred htok hs1 hs2 hs3
      simp [fetchFeedItems, fetchRedditFeedItems, hred, htok, hs1, hs2, hs3]
    · intro tk hred htok hsrc hsub
      have hs1 : jsToLower (jsOrStr fc.source "home") ≠ "home" := by
        rw [hsrc]; decide
      have hs2 : jsToLower (jsOrStr fc.source "home") ≠ "saved" := by
        rw [hsrc]; decide
      simp [fetchFeedItems, fetchRedditFeedItems, hred, htok, hs1, hs2, hsrc,
        hsub]
    · intro tk hred htok hsrc huser
      have hs1 : jsToLower (jsOrStr fc.source "home") ≠ "home" := by
        rw [hsrc]; decide
      simp [fetchFeedItems, fetchRedditFeedItems, hred, htok, hs1, hsrc, huser]
    · intro tk u resp hred htok hsrc huser hlist hok
      have hs1 : jsToLower (jsOrStr fc.source "home") ≠ "home" := by
        rw [hsrc]; decide
      simp [fetchFeedItems, fetchRedditFeedItems, hred, htok, hs1, hsrc, huser,
        hlist, hok]
    · intro tk resp hred htok hsrc hsub hlist hok
      have hs1 : jsToLower (jsOrStr fc.source "home") ≠ "home" := by
        rw [hsrc]; decide
      have hs2 : jsToLower (jsOrStr fc.source "home") ≠ "saved" := by
        rw [hsrc]; decide
      simp [fetchFeedItems, fetchRedditFeedItems, hred, htok, hs1, hs2, hsrc,
        hsub, hlist, hok]
  · intro send entries
    induction entries with
    | nil =>
      intro st _
      exact ⟨st, [], rfl, rfl⟩
    | cons e rest ih =>
      intro st hall
      obtain ⟨its, hits⟩ := hall e (List.mem_cons_self e rest)
      obtain ⟨fc, env, rss⟩ := e
      obtain ⟨stq, names, hrec, hnames⟩ :=
        ih (processFeedSweep fc its send st).1
          (fun e2 he2 => hall e2 (List.mem_cons_of_mem _ he2))
      refine ⟨stq, fc.name :: names, ?_, by simp [hnames]⟩
      simp only [checkForNewNews]
      rw [hits]
      simp only [hrec]

/-- Witness for the amended C9: an RSS feed whose parse rejects yields an
empty item list; a Reddit feed yields an empty item list when the
refresh token is missing, when the source mode is unknown, when
subreddit mode lacks a subreddit name, when saved mode cannot resolve a
username, and when the listing response is non-OK in home, saved and
subreddit modes; and a two-feed sweep whose fetches return processes
both feeds. -/
theorem fetch_fail_open_amended_witness :
    fetchFeedItems ⟨"BBC", "u", none, none, none, none⟩
      ⟨.ok none, .ok none, .ok ⟨true, []⟩⟩ (.error ()) = .ok [] ∧
    fetchFeedItems ⟨"Reddit Home", "", some "reddit", some "home", none, none⟩
      ⟨.ok none, .ok none, .ok ⟨true, []⟩⟩ (.ok []) = .ok [] ∧
    fetchFeedItems ⟨"R2", "", some "reddit", some "weird", none, none⟩
      ⟨.ok (some "tk"), .ok none, .ok ⟨true, []⟩⟩ (.ok []) = .ok [] ∧
    fetchFeedItems ⟨"R3", "", some "reddit", some "subreddit", none, none⟩
      ⟨.ok (some "tk"), .ok none, .ok ⟨true, []⟩⟩ (.ok []) = .ok [] ∧
    fetchFeedItems ⟨"R4", "", some "reddit", some "saved", none, none⟩
      ⟨.ok (some "tk"), .ok none, .ok ⟨true, []⟩⟩ (.ok []) = .ok [] ∧
    fetchFeedItems ⟨"R5", "", some "reddit", some "home", none, none⟩
      ⟨.ok (some "tk"), .ok none, .ok ⟨false, []⟩⟩ (.ok []) = .ok [] ∧
    fetchFeedItems ⟨"R6", "", some "reddit", some "saved", none, none⟩
      ⟨.ok (some "tk"), .ok (some "u"), .ok ⟨false, []⟩⟩ (.ok []) = .ok [] ∧
    fetchFeedItems ⟨"R7", "", some "reddit", some "subreddit", none,
        some "lean"⟩
      ⟨.ok (some "tk"), .ok none, .ok ⟨false, []⟩⟩ (.ok []) = .ok [] ∧
    ∃ stq names, checkForNewNews (fun _ => .ok)
      [(⟨"BBC", "u", none, none, none, none⟩,
        ⟨.ok none, .ok none, .ok ⟨true, []⟩⟩, .error ()),
        (⟨"TechCrunch", "u2", none, none, none, none⟩,
          ⟨.ok none, .ok none, .ok ⟨true, []⟩⟩, .ok [])]
      ⟨[], ⟨[], []⟩⟩ = .ok (stq, names) ∧
      names = ["BBC", "TechCrunch"] :=
  ⟨(fetch_fail_open_amended.1 ⟨"BBC", "u", none, none, none, none⟩
      ⟨.ok none, .ok none, .ok ⟨true, []⟩⟩ (.error ())).2.1 rfl rfl,
    (fetch_fail_open_amended.1
      ⟨"Reddit Home", "", some "reddit", some "home", none, none⟩
      ⟨.ok none, .ok none, .ok ⟨true, []⟩⟩ (.ok [])).2.2.1 rfl rfl,
    (fetch_fail_open_amended.1
      ⟨"R2", "", some "reddit", some "weird", none, none⟩
      ⟨.ok (some "tk"), .ok none, .ok ⟨true, []⟩⟩ (.ok [])).2.2.2.2.1
      "tk" rfl rfl (by decide) (by decide) (by decide),
    (fetch_fail_open_amended.1
      ⟨"R3", "", some "reddit", some "subreddit", none, none⟩
      ⟨.ok (some "tk"), .ok none, .ok ⟨true, []⟩⟩ (.ok [])).2.2.2.2.2.1
      "tk" rfl rfl (by decide) rfl,
    (fetch_fail_open_amended.1
      ⟨"R4", "", some "reddit", some "saved", none, none⟩
      ⟨.ok (some "tk"), .ok none, .ok ⟨true, []⟩⟩ (.ok [])).2.2.2.2.2.2.1
      "tk" rfl rfl (by decide) rfl,
    (fetch_fail_open_amended.1
      ⟨"R5", "", some "reddit", some "home", none, none⟩
      ⟨.ok (some "tk"), .ok none, .ok ⟨false, []⟩⟩ (.ok [])).2.2.2.1
      "tk" ⟨false, []⟩ rfl rfl (by decide) rfl rfl,
    (fetch_fail_open_amended.1
      ⟨"R6", "", some "reddit", some "saved", none, none⟩
      ⟨.ok (some "tk"), .ok (some "u"), .ok ⟨false, []⟩⟩
      (.ok [])).2.2.2.2.2.2.2.1
      "tk" "u" ⟨false, []⟩ rfl rfl (by decide) rfl rfl rfl,
    (fetch_fail_open_amended.1
      ⟨"R7", "", some "reddit", some "subreddit", none, some "lean"⟩
      ⟨.ok (some "tk"), .ok none, .ok ⟨false, []⟩⟩
      (.ok [])).2.2.2.2.2.2.2.2
      "tk" ⟨false, []⟩ rfl rfl (by decide) rfl rfl rfl,
    by
      obtain ⟨stq, names, hrun, hnames⟩ :=
        fetch_fail_open_amended.2 (fun _ => .ok)
          [(⟨"BBC", "u", none, none, none, none⟩,
            ⟨.ok none, .ok none, .ok ⟨true, []⟩⟩, .error ()),
            (⟨"TechCrunch", "u2", none, none, none, none⟩,
              ⟨.ok none, .ok none, .ok ⟨true, []⟩⟩, .ok [])]
          ⟨[], ⟨[], []⟩⟩
          (by
            intro e he
            rcases List.mem_cons.mp he with h | h
            · subst h; exact ⟨[], rfl⟩
            · rcases List.mem_cons.mp h with h2 | h2
              · subst h2; exact ⟨[], rfl⟩
              · cases h2)
      exact ⟨stq, names, hrun, by simpa using hnames⟩⟩

/-- C10: the `/stop` handler removes the chat from the global subscriber
set and from every per-feed subscriber set, so afterwards the chat has no
subscription of any kind. -/
theorem stop_removes_all_subscriptions (c : Int) (reg : Registry) :
    chatHasAnySubscription c (stopHandler c reg) = false ∧
    c ∉ (stopHandler c reg).chatIds ∧
    ∀ p ∈ (stopHandler c reg).feedSubscribers, c ∉ p.2 := by
  have hglobal : c ∉ (stopHandler c reg).chatIds :=
    not_mem_filter_ne c reg.chatIds
  have hfeeds : ∀ p ∈ (stopHandler c reg).feedSubscribers, c ∉ p.2 := by
    intro p hp
    simp only [stopHandler, removeChatFromFeedSubscriptions, List.mem_map] at hp
    obtain ⟨q, _, hq⟩ := hp
    subst hq
    exact not_mem_filter_ne c q.2
  refine ⟨?_, hglobal, hfeeds⟩
  simp only [chatHasAnySubscription, Bool.or_eq_false_iff]
  constructor
  · exact by simpa using hglobal
  · simp only [List.any_eq_false]
    intro p hp
    simpa using hfeeds p hp

/-- Witness for C10 at a concrete registry: after `/stop`, chat 5 has no
subscription of any kind, in particular not in the surviving per-feed
entry. -/
theorem stop_removes_all_subscriptions_witness :
    chatHasAnySubscription 5 (stopHandler 5 ⟨[5, 6], [("bbc news", [5, 7])]⟩)
      = false ∧
    (("bbc news", ([7] : List Int)) ∈
        (stopHandler 5 ⟨[5, 6], [("bbc news", [5, 7])]⟩).feedSubscribers ∧
      (5 : Int) ∉ [(7 : Int)]) :=
  ⟨(stop_removes_all_subscriptions 5 ⟨[5, 6], [("bbc news", [5, 7])]⟩).1,
    by decide,
    (stop_removes_all_subscriptions 5 ⟨[5, 6], [("bbc news", [5, 7])]⟩).2.2
      ("bbc news", [7]) (by decide)⟩

end NewsBot
